import Mathlib

/-!
Verification of the natural-language specification of flask_injector
(src/flask_injector.py) against a shallow embedding of its code.

The embedding translates the Python source into executable Lean definitions:

* Python dicts with string keys become association lists over Nat keys
  (pyLookup / pyUpdate model lookup and the dict(a, **b) merge).
* RequestScope (lines 102-125) becomes explicit state passing over
  ScopeState; the werkzeug Local store is the scope field, and object
  identity of instances created by provider.get() is modelled by a
  monotone counter (each newly created instance receives a fresh number).
* InjectorView.dispatch_request (lines 82-99) becomes dispatch_request;
  the injector calls that can touch the request scope (injector.get on the
  handler class, args_to_inject on the declared bindings) are modelled by
  Dep lists, where a Dep is a plain binding, a request-scoped binding, or
  an unresolvable binding that raises.
* The decorator class (lines 139-211), Builder._reflect_views_from_class
  (lines 271-282), Builder._install_route (lines 284-289) and the view
  loop of Builder._configure / Builder.build (lines 244-269) become the
  DecWorld / reflect_views_from_class / install_route / buildViews
  definitions; Python exceptions (assert, None subscript, tuple index)
  become Except values.
-/

abbrev Key := Nat

abbrev Val := Nat

abbrev Name := Nat

/-- Model of a Python dict: an association list. Keys are unique by
construction of pyUpdate; lookup returns the first match. -/
abbrev PyAssoc (α : Type) := List (Nat × α)

abbrev PyDict := PyAssoc Nat

/-- Dict lookup, d[n] as an Option. -/
def pyLookup {α : Type} : PyAssoc α → Nat → Option α
  | [], _ => none
  | (m, v) :: rest, n => if m = n then some v else pyLookup rest n

/-- Model of Python dict(a, **b): every key of a (with the value of b on
collision) followed by the keys of b not present in a. Values of b take
precedence on key collision. -/
def pyUpdate {α : Type} (a b : PyAssoc α) : PyAssoc α :=
  a.map (fun p =>
    match pyLookup b p.1 with
    | some v => (p.1, v)
    | none => p) ++
  b.filter (fun p => (pyLookup a p.1).isNone)

/-- State of a RequestScope: the per-request store (self._locals.scope,
mapping binding keys to the instances held by the stored
InstanceProviders) and a counter supplying the identity of the next newly
created instance (modelling the object created by provider.get()). -/
structure ScopeState where
  scope : PyDict
  counter : Nat
deriving DecidableEq, Repr

/-- RequestScope.reset (lines 110-112): cleanup the werkzeug locals and
replace the store by an empty dict. -/
def RequestScope.reset (s : ScopeState) : ScopeState :=
  { s with scope := [] }

/-- RequestScope.configure (lines 114-117): fresh locals, then reset. -/
def RequestScope.configure : ScopeState :=
  RequestScope.reset { scope := [], counter := 0 }

/-- RequestScope.get (lines 119-125): return the stored instance for the
key if present; otherwise invoke the provider (creating a fresh instance,
modelled by the counter), store it and return it. -/
def RequestScope.get (s : ScopeState) (k : Key) : Val × ScopeState :=
  match pyLookup s.scope k with
  | some v => (v, s)
  | none => (s.counter, { scope := s.scope ++ [(k, s.counter)], counter := s.counter + 1 })

/-- Invariant: every instance stored in the scope was created with an
identity below the current counter. Holds for every state reachable from
RequestScope.configure. -/
def ScopeWF (s : ScopeState) : Prop :=
  ∀ p ∈ s.scope, p.2 < s.counter

/-- One dependency as seen by the injector while it resolves the handler
class or the declared bindings of a handler: a binding resolved outside
the request scope, a request-scoped binding (resolved through
RequestScope.get on its key), or an unresolvable binding on which the
injector raises. -/
inductive Dep where
  | plain (v : Val)
  | reqScoped (k : Key)
  | failing
deriving DecidableEq, Repr

/-- Whether the injector can resolve this dependency. -/
def Dep.ok : Dep → Bool
  | .failing => false
  | _ => true

/-- Resolve one dependency against the container, threading the request
scope store. -/
def resolveDep (s : ScopeState) : Dep → Option Val × ScopeState
  | .plain v => (some v, s)
  | .reqScoped k =>
    match RequestScope.get s k with
    | (v, s1) => (some v, s1)
  | .failing => (none, s)

/-- Resolution of the dependencies of the handler class performed by
injector.get(self._handler_class) (line 87): dependencies are resolved in
order; the first failure raises, keeping the store mutations made so
far. -/
def resolveClassDeps : List Dep → ScopeState → Option (List Val) × ScopeState
  | [], s => (some [], s)
  | d :: ds, s =>
    match resolveDep s d with
    | (none, s1) => (none, s1)
    | (some v, s1) =>
      match resolveClassDeps ds s1 with
      | (none, s2) => (none, s2)
      | (some vs, s2) => (some (v :: vs), s2)

/-- Resolution of the declared bindings of the handler performed by
self._injector.args_to_inject (lines 91-95): produces the dict of
argument name to resolved value; the first failure raises, keeping the
store mutations made so far. -/
def resolveDeps : List (Name × Dep) → ScopeState → Option PyDict × ScopeState
  | [], s => (some [], s)
  | (n, d) :: ds, s =>
    match resolveDep s d with
    | (none, s1) => (none, s1)
    | (some v, s1) =>
      match resolveDeps ds s1 with
      | (none, s2) => (none, s2)
      | (some bs, s2) => (some ((n, v) :: bs), s2)

/-- Result of invoking the Python handler itself: a returned value or a
raised exception. -/
inductive Outcome where
  | ok (v : Val)
  | exn (e : Nat)
deriving DecidableEq, Repr

/-- What dispatch_request does on the whole: return a value, propagate an
exception raised by injector.get on the handler class, propagate an
exception raised by args_to_inject, or propagate an exception raised by
the handler. -/
inductive DOutcome where
  | returned (v : Val)
  | classResolutionError
  | bindingResolutionError
  | handlerException (e : Nat)
deriving DecidableEq, Repr

def Outcome.toDispatch : Outcome → DOutcome
  | .ok v => .returned v
  | .exn e => .handlerException e

/-- The injectable shape of a handler: the dependencies resolved when the
owning class is instantiated (none when the view is function-based, line
86), and the declared bindings (none when the handler has no __bindings__
attribute, line 89). -/
structure HandlerSpec where
  classDeps : Option (List Dep)
  bindings : Option (List (Name × Dep))
deriving DecidableEq, Repr

/-- Observable result of one call to InjectorView.dispatch_request: the
outcome, the final request-scope state, whether request_scope.reset was
invoked, and the keyword arguments the handler was invoked with (none if
the handler was never invoked). -/
structure DispatchResult where
  outcome : DOutcome
  state : ScopeState
  resetCalled : Bool
  argsPassed : Option PyDict
deriving DecidableEq, Repr

/-- Lines 89-99 of dispatch_request, after the handler was bound.
handler is the possibly bound callable of line 88 (invoked on line 90);
raw is self._handler (invoked on line 97). If the handler has no
__bindings__ it is invoked directly with the route parameters and
dispatch returns without reset; otherwise args_to_inject runs before the
try block (a resolution failure propagates without reset), and the
handler invocation is wrapped in try/finally with
request_scope.reset. -/
def dispatchBody (bindings : Option (List (Name × Dep)))
    (handler raw : PyDict → Outcome) (kwargs : PyDict) (s1 : ScopeState) :
    DispatchResult :=
  match bindings with
  | none => ⟨(handler kwargs).toDispatch, s1, false, some kwargs⟩
  | some bs =>
    match resolveDeps bs s1 with
    | (none, s2) => ⟨.bindingResolutionError, s2, false, none⟩
    | (some bdict, s2) =>
      let merged := pyUpdate bdict kwargs
      ⟨(raw merged).toDispatch, RequestScope.reset s2, true, some merged⟩

/-- InjectorView.dispatch_request (lines 82-99). raw models
self._handler; bound models self._handler.__get__(instance, cls) as a
function of the resolved instance; kwargs are the framework-supplied
route parameters; s0 is the request-scope state at entry. -/
def dispatch_request (spec : HandlerSpec) (raw : PyDict → Outcome)
    (bound : List Val → PyDict → Outcome) (kwargs : PyDict)
    (s0 : ScopeState) : DispatchResult :=
  match spec.classDeps with
  | none => dispatchBody spec.bindings raw raw kwargs s0
  | some cdeps =>
    match resolveClassDeps cdeps s0 with
    | (none, s1) => ⟨.classResolutionError, s1, false, none⟩
    | (some inst, s1) => dispatchBody spec.bindings (bound inst) raw kwargs s1

/-- Whether resolution of the handler class succeeds. -/
def classResolutionOk (spec : HandlerSpec) : Bool :=
  match spec.classDeps with
  | none => true
  | some ds => ds.all Dep.ok

/-- Whether resolution of the declared bindings succeeds. -/
def bindingResolutionOk (spec : HandlerSpec) : Bool :=
  match spec.bindings with
  | none => true
  | some bs => bs.all (fun p => p.2.ok)

/-- Whether dispatch_request reaches the handler invocation of line 97,
the only statement guarded by the try/finally that resets the scope: the
handler declares bindings and both class-instance resolution and binding
resolution succeed. -/
def reachesInvoke (spec : HandlerSpec) : Bool :=
  spec.bindings.isSome && classResolutionOk spec && bindingResolutionOk spec

/-- Spec-side definition for the refinement claim C7, following the spec
(section 8): invoking the handler directly with the route parameters
only. -/
def directInvokeSpec (handler : PyDict → Outcome) (kwargs : PyDict) : Outcome :=
  handler kwargs

/-!
Build-time model: the route marker, the decorator class and the view
loop of the Builder.
-/

/-- A route path (a Python string in the source). Concatenation of paths
is list append; the empty string is the empty list. -/
abbrev RoutePath := List Nat

/-- The value of a __view__ attribute set by the route marker (lines
131-136): the positional arguments (path pattern first) and the keyword
options captured by @route. -/
structure ViewMarker where
  args : List RoutePath
  kwargs : PyDict
deriving DecidableEq, Repr

/-- The route function (lines 131-136): stores (args, kwargs) as the
__view__ attribute of the decorated function. -/
def route (args : List RoutePath) (kwargs : PyDict) : ViewMarker :=
  ⟨args, kwargs⟩

/-- An unbound method of a class: decorator.State.f, identified by its
owning class (im_class) and a method identifier. -/
structure ClsMethod where
  cls : Nat
  meth : Nat
deriving DecidableEq, Repr

/-- decorator.State (lines 178-188): the unbound decorator method plus
the arguments captured by the last decorator.__call__; both are None
until the first call. -/
structure DecState where
  f : ClsMethod
  args : Option (List Val)
  kwargs : Option PyDict
deriving DecidableEq, Repr

/-- The mutable heap of State objects plus decorator.ext_registry (line
191). state_registry (line 192) is the list of all created states in
creation order, which is exactly the states field; ext_registry is
write-only in the source and is modelled as the list of assignments made
to it. -/
structure DecWorld where
  states : List DecState
  ext_registry : List (Nat × ClsMethod)
deriving DecidableEq, Repr

/-- Read a State object from the heap. -/
def getIdx : List DecState → Nat → DecState
  | [], _ => ⟨⟨0, 0⟩, none, none⟩
  | st :: _, 0 => st
  | _ :: rest, n + 1 => getIdx rest n

/-- Overwrite a State object in the heap. -/
def setIdx : List DecState → Nat → DecState → List DecState
  | [], _, _ => []
  | _ :: rest, 0, v => v :: rest
  | st :: rest, n + 1, v => st :: setIdx rest n v

/-- decorator.__init__ (lines 194-198): record f in ext_registry, create
a fresh State(f) and append it to state_registry. Returns the reference
to the new State (its heap index) and the new heap. -/
def decorator_init (w : DecWorld) (f : ClsMethod) : Nat × DecWorld :=
  (w.states.length,
   { states := w.states ++ [⟨f, none, none⟩],
     ext_registry := w.ext_registry ++ [(f.cls, f)] })

/-- The mutation performed by decorator.__call__ (lines 200-203):
overwrite self.state.args and self.state.kwargs with the arguments of
this call. -/
def decorator_call (w : DecWorld) (idx : Nat) (args : List Val)
    (kwargs : PyDict) : DecWorld :=
  let st := getIdx w.states idx
  { w with states := setIdx w.states idx { st with args := some args, kwargs := some kwargs } }

/-- The wrap closure returned by decorator.__call__ (lines 205-209):
append the shared State reference to the __decorators__ list of the
decorated function. -/
def decorator_wrap (idx : Nat) (decs : List Nat) : List Nat :=
  decs ++ [idx]

/-- Model of injector.get(cls) inside State.apply: the container
resolves one canonical instance per class. -/
def injector_get_instance (cls : Nat) : Val :=
  cls

/-- One application of a deferred decorator to a view, as performed by
decorator.State.apply (lines 184-188): the owning class instance
resolved from the container, the method bound to it, and the captured
call arguments. -/
structure DecApplication where
  inst : Val
  method : ClsMethod
  args : List Val
  kwargs : PyDict
deriving DecidableEq, Repr

/-- A view callable is observed through the stack of deferred decorator
applications wrapped around it, outermost first. The base view produced
by InjectorView.as_view is the empty stack. -/
abbrev ViewTrace := List DecApplication

/-- The record of one State.apply (lines 184-188): cls = self.f.im_class;
instance = injector.get(cls); the method is bound to the instance; the
decorator runs with the captured self.args and self.kwargs. -/
def DecState.entry (st : DecState) : DecApplication :=
  ⟨injector_get_instance st.f.cls, st.f, st.args.getD [], st.kwargs.getD []⟩

/-- decorator.State.apply (lines 184-188): wrap the view with the fully
parameterized decorator. -/
def DecState.apply (st : DecState) (view : ViewTrace) : ViewTrace :=
  st.entry :: view

/-- The decorator loop of Builder._install_route (lines 285-287): apply
each State referenced by the __decorators__ list of the handler, in list
order, to the view. -/
def installView (w : DecWorld) (decs : List Nat) (iview : ViewTrace) : ViewTrace :=
  decs.foldl (fun v idx => DecState.apply (getIdx w.states idx) v) iview

/-- Python exceptions raised during Builder.build. -/
inductive PyError where
  | assertionError
  | typeError
  | indexError
deriving DecidableEq, Repr

/-- One registered route: the positional arguments passed to
app.add_url_rule (path pattern first), the keyword options, and the
registered view callable. -/
structure Route where
  args : List RoutePath
  kwargs : PyDict
  viewFunc : ViewTrace
deriving DecidableEq, Repr

/-- Builder._install_route (lines 284-289): apply the accumulated
deferred decorators to the view, then register the route. -/
def install_route (w : DecWorld) (decs : List Nat) (iview : ViewTrace)
    (args : List RoutePath) (kwargs : PyDict) : Route :=
  ⟨args, kwargs, installView w decs iview⟩

/-- A route-marked method of a class-based view, as found by
inspect.getmembers on line 277 (methods without __view__ are not
listed; getmembers yields them sorted by name, and the model takes the
list in that order). -/
structure MethodView where
  name : Nat
  marker : ViewMarker
  decorators : List Nat
deriving DecidableEq, Repr

/-- A class-based view: the optional class-level __view__ marker and its
route-marked methods. -/
structure ClassView where
  classMarker : Option ViewMarker
  methods : List MethodView
deriving DecidableEq, Repr

/-- A function-based view: its optional __view__ marker and its
__decorators__ list. -/
structure FuncView where
  name : Nat
  marker : Option ViewMarker
  decorators : List Nat
deriving DecidableEq, Repr

/-- One entry of the views list handed to the Builder. -/
inductive ViewDecl where
  | func (f : FuncView)
  | cls (c : ClassView)
deriving DecidableEq, Repr

/-- The method loop of Builder._reflect_views_from_class (lines
277-282): for each route-marked method, the registered path is the class
prefix concatenated with the first positional argument of the method
marker (args[0], an IndexError when the method marker has no positional
argument), the remaining positional arguments are kept, and the keyword
options are dict(class_kwargs, **kwargs). -/
def reflectMethods (w : DecWorld) (pathPrefix : RoutePath) (classKwargs : PyDict) :
    List MethodView → Except PyError (List Route)
  | [] => .ok []
  | mv :: rest =>
    match mv.marker.args with
    | [] => .error .indexError
    | a0 :: atail =>
      match reflectMethods w pathPrefix classKwargs rest with
      | .error e => .error e
      | .ok rs =>
        .ok (install_route w mv.decorators []
              ((pathPrefix ++ a0) :: atail)
              (pyUpdate classKwargs mv.marker.kwargs) :: rs)

/-- Builder._reflect_views_from_class (lines 271-282). The assert on
lines 273-274 accepts a missing class marker or a class marker with
exactly one positional argument and raises AssertionError otherwise;
when the class marker is missing, the assert passes and prefix is set to
the empty string, but the unconditional class_kwargs = class_view[1] on
line 276 then subscripts None and raises TypeError. -/
def reflect_views_from_class (w : DecWorld) (cv : ClassView) :
    Except PyError (List Route) :=
  match cv.classMarker with
  | none => .error .typeError
  | some m =>
    match m.args with
    | [a] => reflectMethods w a m.kwargs cv.methods
    | _ => .error .assertionError

/-- The view loop of Builder._configure (lines 262-269): class views go
through _reflect_views_from_class; function views must carry a __view__
marker (the assert on line 267) and are registered through
_install_route with the marker arguments. Views are processed in list
order and the first exception aborts the build. -/
def buildViews (w : DecWorld) : List ViewDecl → Except PyError (List Route)
  | [] => .ok []
  | .func f :: rest =>
    match f.marker with
    | none => .error .assertionError
    | some m =>
      match buildViews w rest with
      | .error e => .error e
      | .ok rs => .ok (install_route w f.decorators [] m.args m.kwargs :: rs)
  | .cls c :: rest =>
    match reflect_views_from_class w c with
    | .error e => .error e
    | .ok cr =>
      match buildViews w rest with
      | .error e => .error e
      | .ok rs => .ok (cr ++ rs)

/-- Builder.build (lines 244-249) as far as view registration is
concerned: the injector, Flask app and configuration bindings are
consumed as black boxes; the observable result is the list of registered
routes, or the exception that aborted the build. -/
def Builder_build (w : DecWorld) (views : List ViewDecl) :
    Except PyError (List Route) :=
  buildViews w views

/-!
Helper lemmas about the dict model.
-/

theorem pyLookup_append {α : Type} (l1 l2 : PyAssoc α) (n : Nat) :
    pyLookup (l1 ++ l2) n =
      match pyLookup l1 n with
      | some v => some v
      | none => pyLookup l2 n := by
  induction l1 with
  | nil => simp [pyLookup]
  | cons p l ih =>
    obtain ⟨m, v⟩ := p
    by_cases h : m = n <;> simp [pyLookup, h, ih]

theorem pyLookup_mem {α : Type} {l : PyAssoc α} {n : Nat} {v : α}
    (h : pyLookup l n = some v) : (n, v) ∈ l := by
  induction l with
  | nil => simp [pyLookup] at h
  | cons p rest ih =>
    obtain ⟨m, w⟩ := p
    by_cases hm : m = n
    · subst hm
      simp [pyLookup] at h
      subst h
      exact List.mem_cons_self _ _
    · simp [pyLookup, hm] at h
      exact List.mem_cons_of_mem _ (ih h)

theorem pyLookup_map_upd {α : Type} (a b : PyAssoc α) (n : Nat) :
    pyLookup (a.map (fun p =>
      match pyLookup b p.1 with
      | some v => (p.1, v)
      | none => p)) n =
      match pyLookup a n with
      | some w =>
        match pyLookup b n with
        | some v => some v
        | none => some w
      | none => none := by
  induction a with
  | nil => simp [pyLookup]
  | cons p rest ih =>
    obtain ⟨m, w⟩ := p
    by_cases hm : m = n
    · subst hm
      cases hb : pyLookup b m <;> simp [pyLookup, hb]
    · cases hb : pyLookup b m <;> simp [pyLookup, hb, hm, ih]

theorem pyLookup_filter {α : Type} (a b : PyAssoc α) (n : Nat) :
    pyLookup (b.filter (fun p => (pyLookup a p.1).isNone)) n =
      match pyLookup a n with
      | some _ => none
      | none => pyLookup b n := by
  induction b with
  | nil => cases pyLookup a n <;> simp [pyLookup]
  | cons p rest ih =>
    obtain ⟨m, v⟩ := p
    by_cases hm : m = n
    · subst hm
      cases ha : pyLookup a m <;> simp [pyLookup, List.filter, ha, ih]
    · cases ha : pyLookup a m <;> cases ham : pyLookup a n <;>
        simp [pyLookup, List.filter, ha, ham, hm, ih]

/-- Lookup in dict(a, **b): the value of b when the key is in b, the
value of a otherwise. -/
theorem pyLookup_update {α : Type} (a b : PyAssoc α) (n : Nat) :
    pyLookup (pyUpdate a b) n =
      match pyLookup a n with
      | some w =>
        match pyLookup b n with
        | some v => some v
        | none => some w
      | none => pyLookup b n := by
  unfold pyUpdate
  rw [pyLookup_append, pyLookup_map_upd, pyLookup_filter]
  cases ha : pyLookup a n <;> cases hb : pyLookup b n <;> simp

/-- Keys of b win on collision in dict(a, **b). -/
theorem pyLookup_update_right {α : Type} (a b : PyAssoc α) (n : Nat) (v : α)
    (h : pyLookup b n = some v) : pyLookup (pyUpdate a b) n = some v := by
  rw [pyLookup_update]
  cases ha : pyLookup a n <;> simp [h]

/-!
Helper lemmas about dependency resolution.
-/

theorem resolveDep_fst_isSome (s : ScopeState) (d : Dep) :
    (resolveDep s d).1.isSome = d.ok := by
  cases d with
  | plain v => simp [resolveDep, Dep.ok]
  | reqScoped k =>
    rcases hg : RequestScope.get s k with ⟨v, s1⟩
    simp [resolveDep, hg, Dep.ok]
  | failing => simp [resolveDep, Dep.ok]

theorem resolveClassDeps_fst_isSome (ds : List Dep) :
    ∀ s : ScopeState, (resolveClassDeps ds s).1.isSome = ds.all Dep.ok := by
  induction ds with
  | nil => intro s; simp [resolveClassDeps]
  | cons d ds ih =>
    intro s
    rcases hd : resolveDep s d with ⟨r, s1⟩
    have hro : r.isSome = d.ok := by
      have := resolveDep_fst_isSome s d
      rw [hd] at this
      exact this
    cases r with
    | none =>
      simp [resolveClassDeps, hd, List.all_cons, ← hro]
    | some v =>
      rcases hrec : resolveClassDeps ds s1 with ⟨rs, s2⟩
      have hih := ih s1
      rw [hrec] at hih
      have hdo : d.ok = true := by simpa using hro.symm
      cases rs with
      | none =>
        have hall : (false : Bool) = ds.all Dep.ok := by simpa using hih
        simp [resolveClassDeps, hd, hrec, List.all_cons, hdo, ← hall]
      | some vs =>
        have hall : (true : Bool) = ds.all Dep.ok := by simpa using hih
        simp [resolveClassDeps, hd, hrec, List.all_cons, hdo, ← hall]

theorem resolveDeps_fst_isSome (bs : List (Name × Dep)) :
    ∀ s : ScopeState, (resolveDeps bs s).1.isSome = bs.all (fun p => p.2.ok) := by
  induction bs with
  | nil => intro s; simp [resolveDeps]
  | cons nd bs ih =>
    intro s
    obtain ⟨n, d⟩ := nd
    rcases hd : resolveDep s d with ⟨r, s1⟩
    have hro : r.isSome = d.ok := by
      have := resolveDep_fst_isSome s d
      rw [hd] at this
      exact this
    cases r with
    | none =>
      simp [resolveDeps, hd, List.all_cons, ← hro]
    | some v =>
      rcases hrec : resolveDeps bs s1 with ⟨rs, s2⟩
      have hih := ih s1
      rw [hrec] at hih
      have hdo : d.ok = true := by simpa using hro.symm
      cases rs with
      | none =>
        have hall : (false : Bool) = bs.all (fun p => p.2.ok) := by simpa using hih
        simp [resolveDeps, hd, hrec, List.all_cons, hdo, ← hall]
      | some bd =>
        have hall : (true : Bool) = bs.all (fun p => p.2.ok) := by simpa using hih
        simp [resolveDeps, hd, hrec, List.all_cons, hdo, ← hall]

/-!
Helper lemmas about the State heap and the builder.
-/

theorem getIdx_append_length (l : List DecState) (v : DecState) :
    getIdx (l ++ [v]) l.length = v := by
  induction l with
  | nil => rfl
  | cons st rest ih => simpa [getIdx] using ih

theorem setIdx_append_length (l : List DecState) (v v' : DecState) :
    setIdx (l ++ [v]) l.length v' = l ++ [v'] := by
  induction l with
  | nil => rfl
  | cons st rest ih => simpa [setIdx] using ih

/-- Processing a prefix of the view list that succeeds only prepends its
routes to whatever the rest of the list produces. -/
theorem buildViews_append (w : DecWorld) (l1 : List ViewDecl) :
    ∀ (rs : List Route) (l2 : List ViewDecl), buildViews w l1 = .ok rs →
      buildViews w (l1 ++ l2) =
        match buildViews w l2 with
        | .error e => .error e
        | .ok rs2 => .ok (rs ++ rs2) := by
  induction l1 with
  | nil =>
    intro rs l2 h
    simp [buildViews] at h
    subst h
    cases hb : buildViews w l2 <;> simp [hb]
  | cons v l1 ih =>
    intro rs l2 h
    cases v with
    | func f =>
      cases hm : f.marker with
      | none => simp [buildViews, hm] at h
      | some m =>
        rw [buildViews, hm] at h
        rcases hrest : buildViews w l1 with e | rs1 <;> rw [hrest] at h
        · exact absurd h (by simp)
        · simp at h
          subst h
          have := ih rs1 l2 hrest
          cases hb : buildViews w l2 <;>
            simp [buildViews, hm, List.cons_append, this, hb]
    | cls c =>
      cases hr : reflect_views_from_class w c with
      | error e => simp [buildViews, hr] at h
      | ok cr =>
        rw [buildViews, hr] at h
        rcases hrest : buildViews w l1 with e | rs1 <;> rw [hrest] at h
        · exact absurd h (by simp)
        · simp at h
          subst h
          have := ih rs1 l2 hrest
          cases hb : buildViews w l2 <;>
            simp [buildViews, hr, List.cons_append, this, hb, List.append_assoc]

/-- If a class view in the list fails to reflect, the whole build fails
with that exception, provided the views before it were processed
successfully. -/
theorem buildViews_error_of_reflect_error (w : DecWorld)
    (pre rest : List ViewDecl) (c : ClassView) (rs : List Route) (e : PyError)
    (hpre : buildViews w pre = .ok rs)
    (hres : reflect_views_from_class w c = .error e) :
    Builder_build w (pre ++ ViewDecl.cls c :: rest) = .error e := by
  unfold Builder_build
  rw [buildViews_append w pre rs (ViewDecl.cls c :: rest) hpre]
  simp [buildViews, hres]

/-- Helper for the precedence claim: whenever dispatchBody reaches the
handler with declared bindings, the arguments passed are
dict(bindings, **kwargs) for the resolved bindings dict. -/
theorem dispatchBody_argsPassed (bs : List (Name × Dep))
    (handler raw : PyDict → Outcome) (kwargs : PyDict) (s1 : ScopeState)
    (args : PyDict)
    (ha : (dispatchBody (some bs) handler raw kwargs s1).argsPassed = some args) :
    ∃ bd : PyDict, args = pyUpdate bd kwargs := by
  rcases hres : resolveDeps bs s1 with ⟨r, s2⟩
  cases r with
  | none => simp [dispatchBody, hres] at ha
  | some bd =>
    simp [dispatchBody, hres] at ha
    exact ⟨bd, ha.symm⟩

/-- Claim C1, counterexample: the claim says RequestScope.reset runs on
every dispatch, including when the handler declares no dependencies and
when dependency resolution fails; on this concrete handler with no
__bindings__ attribute, and on this concrete handler whose single
declared binding is unresolvable, dispatch_request finishes without
calling reset. -/
theorem c1_reset_skipped_counterexample :
    (dispatch_request ⟨none, none⟩ (fun _ => Outcome.ok 0)
        (fun _ _ => Outcome.ok 0) [] RequestScope.configure).resetCalled = false ∧
    (dispatch_request ⟨none, some [(0, Dep.failing)]⟩ (fun _ => Outcome.ok 0)
        (fun _ _ => Outcome.ok 0) [] RequestScope.configure).resetCalled = false := by
  decide

/-- Claim C1, amended: RequestScope.reset is invoked by dispatch_request
exactly when the handler declares dependencies and both handler-class
resolution and dependency resolution succeed (the only path that enters
the try/finally of lines 96-99); on that path reset runs whether the
handler returns normally or raises. When the handler declares no
dependencies, or resolution itself fails, reset is not invoked. -/
theorem c1_reset_iff_invoke_reached (spec : HandlerSpec)
    (raw : PyDict → Outcome) (bound : List Val → PyDict → Outcome)
    (kwargs : PyDict) (s0 : ScopeState) :
    (dispatch_request spec raw bound kwargs s0).resetCalled = reachesInvoke spec := by
  unfold reachesInvoke classResolutionOk bindingResolutionOk
  cases hcd : spec.classDeps with
  | none =>
    cases hb : spec.bindings with
    | none => simp [dispatch_request, hcd, dispatchBody, hb]
    | some bs =>
      rcases hres : resolveDeps bs s0 with ⟨r, s2⟩
      have h1 := resolveDeps_fst_isSome bs s0
      rw [hres] at h1
      cases r with
      | none =>
        have hall : (false : Bool) = bs.all (fun p => p.2.ok) := by simpa using h1
        simp [dispatch_request, hcd, dispatchBody, hb, hres, ← hall]
      | some bd =>
        have hall : (true : Bool) = bs.all (fun p => p.2.ok) := by simpa using h1
        simp [dispatch_request, hcd, dispatchBody, hb, hres, ← hall]
  | some cds =>
    rcases hc : resolveClassDeps cds s0 with ⟨rc, s1⟩
    have h2 := resolveClassDeps_fst_isSome cds s0
    rw [hc] at h2
    cases rc with
    | none =>
      have hall : (false : Bool) = cds.all Dep.ok := by simpa using h2
      simp [dispatch_request, hcd, hc, ← hall]
    | some inst =>
      have hcall : (true : Bool) = cds.all Dep.ok := by simpa using h2
      cases hb : spec.bindings with
      | none => simp [dispatch_request, hcd, hc, dispatchBody, hb]
      | some bs =>
        rcases hres : resolveDeps bs s1 with ⟨r, s2⟩
        have h1 := resolveDeps_fst_isSome bs s1
        rw [hres] at h1
        cases r with
        | none =>
          have hall : (false : Bool) = bs.all (fun p => p.2.ok) := by simpa using h1
          simp [dispatch_request, hcd, hc, dispatchBody, hb, hres, ← hcall, ← hall]
        | some bd =>
          have hall : (true : Bool) = bs.all (fun p => p.2.ok) := by simpa using h1
          simp [dispatch_request, hcd, hc, dispatchBody, hb, hres, ← hcall, ← hall]

/-- Claim C2, counterexample: a class-based view whose class instantiation
resolves one request-scoped dependency but whose method declares no
bindings leaves the created instance in the scope store after the request
completes; the next request on the same worker observes it as the stored
instance for key 0 (a fresh creation would have received identity
1). The claim that the store is empty again after each request is
therefore false. -/
theorem c2_scope_leaks_counterexample :
    (dispatch_request ⟨some [Dep.reqScoped 0], none⟩ (fun _ => Outcome.ok 0)
        (fun _ _ => Outcome.ok 0) [] RequestScope.configure).state.scope ≠ [] ∧
    (RequestScope.get (dispatch_request ⟨some [Dep.reqScoped 0], none⟩
        (fun _ => Outcome.ok 0) (fun _ _ => Outcome.ok 0) []
        RequestScope.configure).state 0).1 = 0 := by
  decide

/-- Claim C2, amended: the scope store is empty before the first request
(configure resets it), and empty again after any request whose handler
declared dependencies and whose class-instance and dependency resolution
succeeded, so that the reset of line 99 ran. A request that creates
request-scoped instances without reaching that reset (handler without
__bindings__, or a resolution failure) leaves its entries in the store,
observable by the next request. -/
theorem c2_scope_empty_when_reset_reached (spec : HandlerSpec)
    (raw : PyDict → Outcome) (bound : List Val → PyDict → Outcome)
    (kwargs : PyDict) (s0 : ScopeState)
    (h : reachesInvoke spec = true) :
    RequestScope.configure.scope = [] ∧
    (dispatch_request spec raw bound kwargs s0).state.scope = [] := by
  refine ⟨rfl, ?_⟩
  simp only [reachesInvoke, Bool.and_eq_true] at h
  obtain ⟨⟨hs, hcok⟩, hbok⟩ := h
  cases hb : spec.bindings with
  | none => rw [hb] at hs; simp at hs
  | some bs =>
    simp only [bindingResolutionOk, hb] at hbok
    cases hcd : spec.classDeps with
    | none =>
      rcases hres : resolveDeps bs s0 with ⟨r, s2⟩
      have h1 := resolveDeps_fst_isSome bs s0
      rw [hres] at h1
      cases r with
      | none => rw [hbok] at h1; simp at h1
      | some bd =>
        simp [dispatch_request, hcd, dispatchBody, hb, hres, RequestScope.reset]
    | some cds =>
      simp only [classResolutionOk, hcd] at hcok
      rcases hc : resolveClassDeps cds s0 with ⟨rc, s1⟩
      have h2 := resolveClassDeps_fst_isSome cds s0
      rw [hc] at h2
      cases rc with
      | none => rw [hcok] at h2; simp at h2
      | some inst =>
        rcases hres : resolveDeps bs s1 with ⟨r, s2⟩
        have h1 := resolveDeps_fst_isSome bs s1
        rw [hres] at h1
        cases r with
        | none => rw [hbok] at h1; simp at h1
        | some bd =>
          simp [dispatch_request, hcd, hc, dispatchBody, hb, hres, RequestScope.reset]

/-- Witness for the amended C2 theorem at a concrete request: a handler
with one resolvable request-scoped binding that raises is dispatched from
the configured state; the store is empty before and after. -/
theorem c2_scope_empty_witness :
    RequestScope.configure.scope = [] ∧
    (dispatch_request ⟨none, some [(0, Dep.reqScoped 3)]⟩
        (fun _ => Outcome.exn 7) (fun _ _ => Outcome.ok 0) []
        RequestScope.configure).state.scope = [] :=
  c2_scope_empty_when_reset_reached ⟨none, some [(0, Dep.reqScoped 3)]⟩
    (fun _ => Outcome.exn 7) (fun _ _ => Outcome.ok 0) []
    RequestScope.configure (by decide)

/-- Claim C3: when the handler has declared dependencies and a resolved
dependency name collides with a framework-supplied route parameter name,
the arguments the handler is invoked with carry the route parameter
value for that name (kwargs wins in dict(bindings, **kwargs), line
97). -/
theorem c3_route_params_take_precedence (spec : HandlerSpec)
    (raw : PyDict → Outcome) (bound : List Val → PyDict → Outcome)
    (kwargs : PyDict) (s0 : ScopeState) (n : Name) (v : Val) (args : PyDict)
    (hb : spec.bindings.isSome = true)
    (ha : (dispatch_request spec raw bound kwargs s0).argsPassed = some args)
    (hk : pyLookup kwargs n = some v) :
    pyLookup args n = some v := by
  cases hbs : spec.bindings with
  | none => rw [hbs] at hb; simp at hb
  | some bs =>
    have hex : ∃ bd : PyDict, args = pyUpdate bd kwargs := by
      cases hcd : spec.classDeps with
      | none =>
        simp only [dispatch_request, hcd] at ha
        rw [hbs] at ha
        exact dispatchBody_argsPassed bs raw raw kwargs s0 args ha
      | some cds =>
        rcases hc : resolveClassDeps cds s0 with ⟨rc, s1⟩
        cases rc with
        | none => simp [dispatch_request, hcd, hc] at ha
        | some inst =>
          simp only [dispatch_request, hcd, hc] at ha
          rw [hbs] at ha
          exact dispatchBody_argsPassed bs (bound inst) raw kwargs s1 args ha
    obtain ⟨bd, rfl⟩ := hex
    exact pyLookup_update_right bd kwargs n v hk

/-- Witness for C3 at a concrete collision: the handler declares binding
7 resolving to 99, the route supplies parameter 7 with value 42, and the
handler receives 42 for argument 7. -/
theorem c3_route_params_witness :
    (dispatch_request ⟨none, some [(7, Dep.plain 99)]⟩
        (fun _ => Outcome.ok 0) (fun _ _ => Outcome.ok 0) [(7, 42)]
        RequestScope.configure).argsPassed = some [(7, 42)] ∧
    pyLookup [(7, 42)] 7 = some 42 :=
  ⟨by decide,
   c3_route_params_take_precedence ⟨none, some [(7, Dep.plain 99)]⟩
     (fun _ => Outcome.ok 0) (fun _ _ => Outcome.ok 0) [(7, 42)]
     RequestScope.configure 7 42 [(7, 42)] (by decide) (by decide) (by decide)⟩

/-- Claim C4: within one request, RequestScope.get on the same key twice
returns the identical instance (the provider runs at most once per key
per request), and after RequestScope.reset the same key yields a newly
created instance, distinct from the previous one. The hypothesis is the
store invariant satisfied by every state reachable from configure. -/
theorem c4_singleton_within_request (s : ScopeState) (k : Key)
    (hwf : ScopeWF s) :
    (RequestScope.get (RequestScope.get s k).2 k).1 = (RequestScope.get s k).1 ∧
    (RequestScope.get (RequestScope.reset (RequestScope.get s k).2) k).1 ≠
      (RequestScope.get s k).1 := by
  cases hl : pyLookup s.scope k with
  | some v =>
    have hvlt : v < s.counter := hwf (k, v) (pyLookup_mem hl)
    constructor
    · simp [RequestScope.get, hl]
    · simp [RequestScope.get, RequestScope.reset, hl, pyLookup]
      exact Ne.symm (Nat.ne_of_lt hvlt)
  | none =>
    have hsecond : pyLookup (s.scope ++ [(k, s.counter)]) k = some s.counter := by
      rw [pyLookup_append, hl]
      simp [pyLookup]
    constructor
    · simp [RequestScope.get, hl, hsecond]
    · simp [RequestScope.get, RequestScope.reset, hl, pyLookup]

/-- Witness for C4 from the configured (empty) scope state at key 0. -/
theorem c4_singleton_witness :
    (RequestScope.get (RequestScope.get RequestScope.configure 0).2 0).1 =
      (RequestScope.get RequestScope.configure 0).1 ∧
    (RequestScope.get (RequestScope.reset
        (RequestScope.get RequestScope.configure 0).2) 0).1 ≠
      (RequestScope.get RequestScope.configure 0).1 :=
  c4_singleton_within_request RequestScope.configure 0
    (by intro p hp; simp [RequestScope.configure, RequestScope.reset] at hp)


/-- Claim C5, failing input: a class-based view with no class-level route
marker and one route-marked method. The assert of lines 273-274 allows
the missing marker and line 275 computes an empty prefix for it, but line
276 then subscripts None (class_kwargs = class_view[1]) and build raises
TypeError instead of registering the method under its own path with an
empty prefix as the claim states. -/
theorem c5_no_class_marker_raises :
    reflect_views_from_class ⟨[], []⟩ ⟨none, [⟨0, ⟨[[5]], []⟩, []⟩]⟩ =
      .error .typeError ∧
    Builder_build ⟨[], []⟩ [ViewDecl.cls ⟨none, [⟨0, ⟨[[5]], []⟩, []⟩]⟩] =
      .error .typeError :=
  ⟨rfl, rfl⟩

/-- Claim C6: a class-level route marker with two or more positional
arguments makes the assert of lines 273-274 fail, so reflecting the
class yields an AssertionError before any route of the class is
produced, and Builder.build fails with that AssertionError provided the
views before the class were processed successfully. -/
theorem c6_build_fails_on_two_positional_args (w : DecWorld)
    (pre rest : List ViewDecl) (c : ClassView) (m : ViewMarker)
    (rs : List Route)
    (hm : c.classMarker = some m) (hlen : 2 ≤ m.args.length)
    (hpre : buildViews w pre = .ok rs) :
    reflect_views_from_class w c = .error .assertionError ∧
    Builder_build w (pre ++ ViewDecl.cls c :: rest) = .error .assertionError := by
  have hrefl : reflect_views_from_class w c = .error .assertionError := by
    cases hargs : m.args with
    | nil => rw [hargs] at hlen; simp at hlen
    | cons a t =>
      cases t with
      | nil => rw [hargs] at hlen; simp at hlen
      | cons b t2 => simp [reflect_views_from_class, hm, hargs]
  exact ⟨hrefl,
    buildViews_error_of_reflect_error w pre rest c rs .assertionError hpre hrefl⟩

/-- Witness for C6: a class whose class-level marker carries two path
arguments, preceded by an empty prefix of views. -/
theorem c6_build_fails_witness :
    reflect_views_from_class ⟨[], []⟩ ⟨some ⟨[[1], [2]], []⟩, []⟩ =
      .error .assertionError ∧
    Builder_build ⟨[], []⟩ ([] ++ ViewDecl.cls ⟨some ⟨[[1], [2]], []⟩, []⟩ :: []) =
      .error .assertionError :=
  c6_build_fails_on_two_positional_args ⟨[], []⟩ [] [] ⟨some ⟨[[1], [2]], []⟩, []⟩
    ⟨[[1], [2]], []⟩ [] rfl (by decide) rfl

/-- Claim C7: a handler with no __bindings__ attribute dispatches to
exactly what direct invocation with the route parameters gives. For a
function-based view the handler itself is invoked on kwargs; for a
class-based view whose instance resolution succeeds, the handler bound
to the container-resolved instance is invoked on kwargs. -/
theorem c7_no_bindings_direct_invocation (spec : HandlerSpec)
    (raw : PyDict → Outcome) (bound : List Val → PyDict → Outcome)
    (kwargs : PyDict) (s0 : ScopeState) (hb : spec.bindings = none) :
    (spec.classDeps = none →
      (dispatch_request spec raw bound kwargs s0).outcome =
        (directInvokeSpec raw kwargs).toDispatch) ∧
    (∀ (cds : List Dep) (inst : List Val) (s1 : ScopeState),
      spec.classDeps = some cds →
      resolveClassDeps cds s0 = (some inst, s1) →
      (dispatch_request spec raw bound kwargs s0).outcome =
        (directInvokeSpec (bound inst) kwargs).toDispatch) := by
  constructor
  · intro hcd
    simp [dispatch_request, hcd, dispatchBody, hb, directInvokeSpec]
  · intro cds inst s1 hcd hres
    simp [dispatch_request, hcd, hres, dispatchBody, hb, directInvokeSpec]

/-- Witness for C7: a class-based handler with no bindings, whose class
resolves with one plain dependency; dispatch returns what the bound
handler returns on the route parameters alone. -/
theorem c7_direct_invocation_witness :
    (dispatch_request ⟨some [Dep.plain 5], none⟩ (fun _ => Outcome.ok 1)
        (fun inst _ => Outcome.ok (List.headD inst 0)) [(3, 4)]
        RequestScope.configure).outcome =
      (directInvokeSpec ((fun inst _ => Outcome.ok (List.headD inst 0)) [5])
        [(3, 4)]).toDispatch :=
  (c7_no_bindings_direct_invocation ⟨some [Dep.plain 5], none⟩
      (fun _ => Outcome.ok 1) (fun inst _ => Outcome.ok (List.headD inst 0))
      [(3, 4)] RequestScope.configure rfl).2
    [Dep.plain 5] [5] RequestScope.configure rfl (by decide)

/-- Claim C8: _install_route applies the deferred decorators accumulated
on a handler in the order they were attached (the __decorators__ list);
the resulting view is the base view wrapped by one application per
State, each resolving the owning class instance from the container and
using the captured arguments, with the first-attached decorator
innermost. -/
theorem c8_decorators_applied_in_order (w : DecWorld) (decs : List Nat) :
    ∀ iview : ViewTrace,
      installView w decs iview =
        (decs.map (fun i => (getIdx w.states i).entry)).reverse ++ iview := by
  induction decs with
  | nil => intro iview; simp [installView]
  | cons i rest ih =>
    intro iview
    have h1 : installView w (i :: rest) iview =
        installView w rest ((getIdx w.states i).entry :: iview) := rfl
    rw [h1, ih]
    simp

/-- Claim C9: the two decorator calls on the same decorator object share
the single State created at decorator construction; the second call
overwrites the captured arguments, so at build time a handler wrapped by
the first call is decorated with the arguments of the second call (both
handlers reference the same State index, hence both receive args2 and
kw2). -/
theorem c9_shared_state_last_call_wins (w0 : DecWorld) (f : ClsMethod)
    (args1 args2 : List Val) (kw1 kw2 : PyDict) :
    (getIdx (decorator_call (decorator_call (decorator_init w0 f).2
        (decorator_init w0 f).1 args1 kw1) (decorator_init w0 f).1 args2
        kw2).states (decorator_init w0 f).1).args = some args2 ∧
    installView (decorator_call (decorator_call (decorator_init w0 f).2
        (decorator_init w0 f).1 args1 kw1) (decorator_init w0 f).1 args2 kw2)
        (decorator_wrap (decorator_init w0 f).1 []) [] =
      [⟨injector_get_instance f.cls, f, args2, kw2⟩] := by
  have hcall : ∀ (w : DecWorld) (idx : Nat) (a : List Val) (kw : PyDict),
      (decorator_call w idx a kw).states =
        setIdx w.states idx
          { getIdx w.states idx with args := some a, kwargs := some kw } :=
    fun _ _ _ _ => rfl
  have hidx : (decorator_init w0 f).1 = w0.states.length := rfl
  have hw1 : (decorator_init w0 f).2.states = w0.states ++ [⟨f, none, none⟩] := rfl
  have hw2 : (decorator_call (decorator_init w0 f).2 (decorator_init w0 f).1
      args1 kw1).states = w0.states ++ [⟨f, some args1, some kw1⟩] := by
    rw [hcall, hidx, hw1, getIdx_append_length, setIdx_append_length]
  have hw3 : (decorator_call (decorator_call (decorator_init w0 f).2
      (decorator_init w0 f).1 args1 kw1) (decorator_init w0 f).1 args2
      kw2).states = w0.states ++ [⟨f, some args2, some kw2⟩] := by
    rw [hcall, hw2, hidx, getIdx_append_length, setIdx_append_length]
  have hget : (getIdx (decorator_call (decorator_call (decorator_init w0 f).2
      (decorator_init w0 f).1 args1 kw1) (decorator_init w0 f).1 args2
      kw2).states (decorator_init w0 f).1) = ⟨f, some args2, some kw2⟩ := by
    rw [hw3, hidx, getIdx_append_length]
  constructor
  · rw [hget]
  · show installView _ ([] ++ [(decorator_init w0 f).1]) [] = _
    simp only [installView, List.nil_append, List.foldl_cons, List.foldl_nil]
    rw [DecState.apply, hget]
    rfl

/-- Claim C10: a class-level route marker present but carrying zero
positional arguments also fails the assert of lines 273-274 (exactly one
positional argument is required when a class marker exists), so the
class fails to reflect and Builder.build raises AssertionError at build
time. -/
theorem c10_build_fails_on_zero_positional_args (w : DecWorld)
    (pre rest : List ViewDecl) (c : ClassView) (m : ViewMarker)
    (rs : List Route)
    (hm : c.classMarker = some m) (hargs : m.args = [])
    (hpre : buildViews w pre = .ok rs) :
    reflect_views_from_class w c = .error .assertionError ∧
    Builder_build w (pre ++ ViewDecl.cls c :: rest) = .error .assertionError := by
  have hrefl : reflect_views_from_class w c = .error .assertionError := by
    simp [reflect_views_from_class, hm, hargs]
  exact ⟨hrefl,
    buildViews_error_of_reflect_error w pre rest c rs .assertionError hpre hrefl⟩

/-- Witness for C10: a class marker with an empty positional argument
tuple. -/
theorem c10_build_fails_witness :
    reflect_views_from_class ⟨[], []⟩ ⟨some ⟨[], [(1, 2)]⟩, []⟩ =
      .error .assertionError ∧
    Builder_build ⟨[], []⟩ ([] ++ ViewDecl.cls ⟨some ⟨[], [(1, 2)]⟩, []⟩ :: []) =
      .error .assertionError :=
  c10_build_fails_on_zero_positional_args ⟨[], []⟩ [] [] ⟨some ⟨[], [(1, 2)]⟩, []⟩
    ⟨[], [(1, 2)]⟩ [] rfl rfl rfl
